import Mathlib

/-
  Verification development for the keycloak-spiffe proof-of-concept.

  Part 1 embeds the workload client (`workload/main.go`): the sequence of
  externally visible calls the process makes, as a function of its input
  environment and of the outcomes the external world returns.

  Part 2 models the SPIFFE issuance/verification core described by the
  design document (Signing Authority and Verification Module), which has
  no in-repository implementation.
-/

namespace KeycloakSpiffe

namespace Workload

/-- Environment the workload process starts in: the two environment
variables that are relevant to `main.go`. `none` models an unset variable,
`some s` a variable set to `s`. -/
structure Env where
  audienceVar : Option String
  spiffeEndpointSocket : Option String
deriving Repr, DecidableEq

/-- Go `os.Getenv`: returns the empty string when the variable is unset. -/
def getenv (v : Option String) : String := v.getD ""

/-- The constant `socketPath` of `main.go` (line 15). -/
def socketPath : String := "unix:///opt/spire/sockets/agent.sock"

/-- The default audience hard-coded in `main.go` (line 37). -/
def defaultAudience : String := "https://localhost.idyatech.fr:8443/auth/realms/spiffe"

/-- Audience selection of `main.go` lines 35-38: the value of `AUDIENCE`
unless `os.Getenv` returned the empty string, in which case the default. -/
def audienceOf (env : Env) : String :=
  let a := getenv env.audienceVar
  if a = "" then defaultAudience else a

/-- Address resolution of the go-spiffe workload-API client: an address
supplied explicitly through `workloadapi.WithAddr` takes precedence;
only when no explicit address is given does the library fall back to the
`SPIFFE_ENDPOINT_SOCKET` environment variable. -/
def resolveAddr (explicitAddr : Option String) (env : Env) : String :=
  match explicitAddr with
  | some a => a
  | none => getenv env.spiffeEndpointSocket

/-- The go-spiffe `jwtsvid.Params` value the workload passes to
`FetchJWTSVID` (lines 41-43): `main.go` sets only the `Audience` field,
leaving `ExtraAudiences` and `Subject` at their zero values. -/
structure FetchParams where
  audience : String
  extraAudiences : List String
  subject : Option String
deriving Repr, DecidableEq

/-- The argument list of the `curl` invocation built in `main.go`
lines 53-62, as a function of the marshalled JWT-SVID. -/
def curlArgs (svid : String) : List String :=
  ["-X", "POST",
   "-H", "Content-Type:application/x-www-form-urlencoded",
   "-d", "grant_type=client_credentials",
   "-d", "client_assertion_type=urn:ietf:params:oauth:client-assertion-type:jwt-spiffe",
   "-d", "client_assertion=" ++ svid,
   "-k",
   "-v",
   "-w", "\nHTTP Status: %\x7bhttp_code\x7d\n",
   "https://keycloak:8443/auth/realms/spiffe/protocol/openid-connect/token"]

/-- One externally visible call of the workload. The `deadline` field
records the deadline (in seconds) the caller attached to the call:
`some t` when the call runs under a context with a timeout of `t`
seconds, `none` when the call carries no deadline at all. -/
inductive Call where
  | newJWTSource (addr : String) (deadline : Option Nat)
  | fetchJWTSVID (params : FetchParams) (deadline : Option Nat)
  | curlExec (args : List String) (deadline : Option Nat)
deriving Repr, DecidableEq

/-- The deadline a call carries, if any. -/
def Call.deadline : Call → Option Nat
  | .newJWTSource _ d => d
  | .fetchJWTSVID _ d => d
  | .curlExec _ d => d

/-- Outcomes the external world returns to the workload: whether
`workloadapi.NewJWTSource` succeeds, whether `FetchJWTSVID` succeeds, and
the marshalled token it returns on success. -/
structure World where
  connectOk : Bool
  fetchOk : Bool
  svidToken : String
deriving Repr, DecidableEq

/-- The timeout, in seconds, of the context created at `main.go` line 19. -/
def mainTimeoutSeconds : Nat := 100

/-- The sequence of externally visible calls `main` makes, in order.
`log.Fatalf` terminates the process, so a failed connect or a failed
fetch ends the list at that point. The source connects with the
explicit `WithAddr(socketPath)` option, passes the derived context
(deadline 100 s) to both library calls, and runs `curl` through
`exec.Command`, which attaches no context and no timeout flag. -/
def workloadRun (env : Env) (w : World) : List Call :=
  Call.newJWTSource (resolveAddr (some socketPath) env) (some mainTimeoutSeconds) ::
    (if w.connectOk then
      Call.fetchJWTSVID ⟨audienceOf env, [], none⟩ (some mainTimeoutSeconds) ::
        (if w.fetchOk then [Call.curlExec (curlArgs w.svidToken) none] else [])
    else [])

/-- The argument list of the first token-exchange (`curl`) call of a run,
if the run performs one. -/
def exchangeArgsOf (env : Env) (w : World) : Option (List String) :=
  ((workloadRun env w).filterMap fun c =>
    match c with
    | Call.curlExec args _ => some args
    | _ => none).head?

/-- The parameters of the first `FetchJWTSVID` call of a run, if any. -/
def fetchParamsOf (env : Env) (w : World) : Option FetchParams :=
  ((workloadRun env w).filterMap fun c =>
    match c with
    | Call.fetchJWTSVID p _ => some p
    | _ => none).head?

/-- Every call of the list carries a deadline. -/
def allDeadlines (calls : List Call) : Bool :=
  calls.all fun c => c.deadline.isSome

/-- Whether a `curl` argument list disables TLS certificate verification
of the peer: curl does so exactly when `-k` (or its long form
`--insecure`) is present. -/
def tlsVerifyDisabled (args : List String) : Prop :=
  "-k" ∈ args ∨ "--insecure" ∈ args

/-- The deadline discipline the workload actually follows: the two
library calls run under the 100-second context of `main.go` line 19,
while the `curl` invocation carries no deadline. -/
def deadlinePolicy (c : Call) : Bool :=
  match c with
  | .newJWTSource _ d => d == some mainTimeoutSeconds
  | .fetchJWTSVID _ d => d == some mainTimeoutSeconds
  | .curlExec _ d => d == none

/-- A sample environment: both variables set. -/
def envSample : Env :=
  ⟨some "https://kc.example.org/realms/spiffe", some "unix:///tmp/other.sock"⟩

/-- A sample world in which both library calls succeed. -/
def worldSample : World := ⟨true, true, "tok"⟩

/-- A sample world in which the connection succeeds but the SVID fetch
fails. -/
def worldFetchFail : World := ⟨true, false, ""⟩

end Workload

namespace Core

/-- Modelled from the spec: a SPIFFE identity, a trust domain plus an
ordered sequence of path segments (design document section 3). -/
structure SpiffeID where
  trustDomain : String
  path : List String
deriving Repr, DecidableEq

/-- Modelled from the spec: a Registry entry (section 3). The selector
predicate and parent identity are consumed only by `resolve`, which these
claims do not exercise; `issue` consumes the identity, the allowed
audiences and the TTL. -/
structure RegistryEntry where
  entryId : String
  parentId : String
  spiffeId : SpiffeID
  allowedAudiences : List String
  ttl : Nat
deriving Repr, DecidableEq

/-- Modelled from the spec: the header of a signed identity document,
carrying the algorithm and the key identifier of the signing key. -/
structure Header where
  alg : String
  keyId : String
deriving Repr, DecidableEq

/-- Modelled from the spec: the claims of a signed identity document
(section 3) — subject, audiences, expiry, issued-at, nonce and the
trust-domain issuer identity. All timestamps are seconds. -/
structure Claims where
  sub : SpiffeID
  aud : List String
  exp : Nat
  iat : Nat
  jti : String
  iss : String
deriving Repr, DecidableEq

/-- Modelled from the spec: a symbolic cryptographic signature. It records
the private key used and the exact header and claims that were signed, so
that signature verification holds exactly when the matching public key is
used and the signed material is byte-identical to the document carrying
it. -/
structure Sig where
  signedWith : Nat
  signedHeader : Header
  signedClaims : Claims
deriving Repr, DecidableEq

/-- Modelled from the spec: a signed identity document (JWT-SVID):
header, claims and signature (section 3). -/
structure SignedDocument where
  header : Header
  claims : Claims
  signature : Sig
deriving Repr, DecidableEq

/-- Modelled from the spec: the lifecycle status of published key
material (section 3). -/
inductive KeyStatus where
  | active
  | retiring
  | revoked
deriving Repr, DecidableEq

/-- Modelled from the spec: public key material as published by the Key
Publication Endpoint (section 3). In the symbolic model the public key is
the same natural number as the private half. -/
structure KeyMaterial where
  keyId : String
  publicKey : Nat
  algorithm : String
  status : KeyStatus
deriving Repr, DecidableEq

/-- Modelled from the spec: a signing key pair owned by the Signing
Authority. `key` is the shared symbolic value of its private and public
halves. -/
structure KeyPair where
  keyId : String
  key : Nat
  algorithm : String
deriving Repr, DecidableEq

/-- Modelled from the spec: the Signing Authority (section 4.2): trust
domain, current active signing key, and its maximum-TTL policy. -/
structure SigningAuthority where
  trustDomain : String
  currentKey : KeyPair
  maxTtlPolicy : Nat
deriving Repr, DecidableEq

/-- Modelled from the spec: the failures `issue` may return
(section 4.2). -/
inductive IssueError where
  | AudienceNotAllowed
  | InternalSigningError
deriving Repr, DecidableEq

/-- Boolean subset test on audience sets represented as lists. -/
def subsetOf (xs ys : List String) : Bool :=
  xs.all fun x => ys.contains x

/-- Modelled from the spec: `issue` of the Signing Authority
(section 4.2), absent from the repository sources. Validates
`requested_audience ⊆ entry.allowed_audiences`, rejecting with
`AudienceNotAllowed` otherwise; sets `exp = now + min(entry.ttl,
max_ttl_policy)` and `iat = now`; signs with the current active key and
puts that key's identifier in the header. -/
def issue (sa : SigningAuthority) (now : Nat) (jti : String)
    (entry : RegistryEntry) (requestedAudience : List String) :
    Except IssueError SignedDocument :=
  if subsetOf requestedAudience entry.allowedAudiences then
    let header : Header := ⟨sa.currentKey.algorithm, sa.currentKey.keyId⟩
    let claims : Claims :=
      ⟨entry.spiffeId, requestedAudience, now + min entry.ttl sa.maxTtlPolicy,
        now, jti, sa.trustDomain⟩
    .ok ⟨header, claims, ⟨sa.currentKey.key, header, claims⟩⟩
  else
    .error .AudienceNotAllowed

/-- Modelled from the spec: the typed verification failures
(section 4.5). -/
inductive VerifyError where
  | SignatureInvalid
  | Expired
  | AudienceMismatch
  | UntrustedIssuer
  | UnknownKey
deriving Repr, DecidableEq

/-- Modelled from the spec: a successful verification result
(section 3): the verified identity together with the full claims. -/
structure VerifiedIdentity where
  identity : SpiffeID
  claims : Claims
deriving Repr, DecidableEq

/-- Modelled from the spec: the fixed clock-skew tolerance of the expiry
check, the configuration constant of section 4.5 step 4 (30 seconds). -/
def clockSkewToleranceSeconds : Nat := 30

/-- Symbolic signature verification: the signature was produced with the
private half of the given public key, over exactly this document's header
and claims. -/
def verifySig (publicKey : Nat) (doc : SignedDocument) : Prop :=
  doc.signature.signedWith = publicKey ∧
    doc.signature.signedHeader = doc.header ∧
    doc.signature.signedClaims = doc.claims

instance (publicKey : Nat) (doc : SignedDocument) :
    Decidable (verifySig publicKey doc) := by
  unfold verifySig
  infer_instance

/-- Modelled from the spec: key resolution of section 4.5 step 2 — the
locally cached key set for the trust domain is consulted first; when the
key identifier is absent there, one synchronous refresh is forced and the
fresh set consulted before `UnknownKey` is declared. -/
def lookupKey (cached fresh : List KeyMaterial) (kid : String) : Option KeyMaterial :=
  match cached.find? (fun k => k.keyId == kid) with
  | some k => some k
  | none => fresh.find? (fun k => k.keyId == kid)

/-- Modelled from the spec: `verify` of the Verification Module
(section 4.5), absent from the repository sources. The checks run in the
strict order of the design document: untrusted issuer, unknown key,
signature, expiry, audience; the first failing check wins. `cached` and
`fresh` give, per trust domain, the locally cached key set and the key
set a forced refresh from the Key Publication Endpoint would return. -/
def verify (doc : SignedDocument) (expectedAudience : String)
    (allowlist : List String) (cached fresh : String → List KeyMaterial)
    (now : Nat) : Except VerifyError VerifiedIdentity :=
  if doc.claims.iss ∈ allowlist then
    match lookupKey (cached doc.claims.iss) (fresh doc.claims.iss) doc.header.keyId with
    | none => .error .UnknownKey
    | some km =>
      if verifySig km.publicKey doc then
        if now < doc.claims.exp + clockSkewToleranceSeconds then
          if expectedAudience ∈ doc.claims.aud then
            .ok ⟨doc.claims.sub, doc.claims⟩
          else .error .AudienceMismatch
        else .error .Expired
      else .error .SignatureInvalid
  else .error .UntrustedIssuer

/-- The key material the Key Publication Endpoint serves for the Signing
Authority's current key: its public projection, status `active`. -/
def publishedCurrentKey (sa : SigningAuthority) : KeyMaterial :=
  ⟨sa.currentKey.keyId, sa.currentKey.key, sa.currentKey.algorithm, .active⟩

/-- Sample audience: the relying party of the concrete scenario of the
design document. -/
def audKC : String := "https://kc.example.org/realms/spiffe"

/-- Sample Signing Authority for trust domain `example.org`. -/
def saC : SigningAuthority := ⟨"example.org", ⟨"kid-1", 42, "ES256"⟩, 3600⟩

/-- Sample Registry entry matching the concrete scenario of the design
document. -/
def entryC : RegistryEntry :=
  ⟨"e-1", "spiffe://example.org/agent", ⟨"example.org", ["mcp-client"]⟩, [audKC], 300⟩

/-- The key set the Key Publication Endpoint serves for `example.org`. -/
def pubKeysC : List KeyMaterial := [⟨"kid-1", 42, "ES256", .active⟩]

/-- Sample document header signed with the current key. -/
def headerC : Header := ⟨"ES256", "kid-1"⟩

/-- The claims `issue saC 1000 "jti-1" entryC [audKC]` produces. -/
def claimsC : Claims :=
  ⟨⟨"example.org", ["mcp-client"]⟩, [audKC], 1300, 1000, "jti-1", "example.org"⟩

/-- The document `issue saC 1000 "jti-1" entryC [audKC]` produces. -/
def docC : SignedDocument := ⟨headerC, claimsC, ⟨42, headerC, claimsC⟩⟩

/-- Claims of a forged document: not yet expired, audience is some other
relying party. -/
def badClaimsC : Claims :=
  ⟨⟨"example.org", ["mcp-client"]⟩, ["https://other.example.org"], 1300, 1000,
    "jti-2", "example.org"⟩

/-- A forged document: its signature was produced with key 999, not with
the published key 42, and its audience does not contain `audKC`. -/
def badDocC : SignedDocument := ⟨headerC, badClaimsC, ⟨999, headerC, badClaimsC⟩⟩

/-- Claims that expired at time 100. -/
def expiredClaimsC : Claims :=
  ⟨⟨"example.org", ["mcp-client"]⟩, [audKC], 100, 50, "jti-3", "example.org"⟩

/-- An expired document whose signature is invalid (produced with key
999 instead of the published key 42). -/
def expiredBadSigDoc : SignedDocument :=
  ⟨headerC, expiredClaimsC, ⟨999, headerC, expiredClaimsC⟩⟩

/-- An expired document whose signature is valid. -/
def expiredDocC : SignedDocument :=
  ⟨headerC, expiredClaimsC, ⟨42, headerC, expiredClaimsC⟩⟩

end Core

namespace Workload

/-- C4: every run that reaches the token exchange sends the fixed
`grant_type=client_credentials` and the fixed
`client_assertion_type=urn:ietf:params:oauth:client-assertion-type:jwt-spiffe`
form fields, together with the fetched document as the
`client_assertion`, and the argument list does not depend on the input
environment. -/
theorem exchange_fixed_parameters (env env' : Env) (w : World)
    (hc : w.connectOk = true) (hf : w.fetchOk = true) :
    exchangeArgsOf env w = some (curlArgs w.svidToken) ∧
    exchangeArgsOf env' w = exchangeArgsOf env w ∧
    "grant_type=client_credentials" ∈ curlArgs w.svidToken ∧
    "client_assertion_type=urn:ietf:params:oauth:client-assertion-type:jwt-spiffe"
      ∈ curlArgs w.svidToken ∧
    ("client_assertion=" ++ w.svidToken) ∈ curlArgs w.svidToken := by
  refine ⟨?_, ?_, ?_, ?_, ?_⟩
  · simp [exchangeArgsOf, workloadRun, hc, hf]
  · simp [exchangeArgsOf, workloadRun, hc, hf]
  · simp [curlArgs]
  · simp [curlArgs]
  · simp [curlArgs]

/-- Witness for C4 at a concrete environment and world. -/
theorem exchange_fixed_parameters_witness :
    exchangeArgsOf envSample worldSample = some (curlArgs "tok") :=
  (exchange_fixed_parameters envSample envSample worldSample rfl rfl).1

/-- C5 counterexample: in a fully successful run the token-exchange call
is present and carries no deadline, so not every network-facing call of
the workload carries a caller-supplied deadline. -/
theorem not_all_calls_have_deadline :
    Call.curlExec (curlArgs "tok") none ∈ workloadRun envSample worldSample ∧
    (Call.curlExec (curlArgs "tok") none).deadline = none ∧
    allDeadlines (workloadRun envSample worldSample) = false := by
  refine ⟨by decide, rfl, by decide⟩

/-- C5 (amended): in every run, the connection to the issuance service
and the fetch of the signed document carry the 100-second context
deadline, while the token-exchange `curl` invocation carries no deadline
at all. -/
theorem call_deadlines (env : Env) (w : World) (c : Call)
    (hc : c ∈ workloadRun env w) : deadlinePolicy c = true := by
  cases hcon : w.connectOk <;> cases hfet : w.fetchOk <;>
    simp [workloadRun, hcon, hfet] at hc <;>
    rcases hc with rfl | rfl | rfl <;> rfl

/-- Witness for the amended C5 at a concrete run and call. -/
theorem call_deadlines_witness :
    Call.newJWTSource socketPath (some mainTimeoutSeconds)
      ∈ workloadRun envSample worldSample ∧
    deadlinePolicy (Call.newJWTSource socketPath (some mainTimeoutSeconds)) = true :=
  ⟨by decide, call_deadlines envSample worldSample _ (by decide)⟩

/-- C6: when the SVID fetch fails, the run is exactly the connection
followed by the single failed fetch — no second fetch attempt and no
token-exchange call ever happens, so nothing is passed onward. -/
theorem fetch_failure_is_terminal (env : Env) (w : World)
    (hc : w.connectOk = true) (hf : w.fetchOk = false) :
    workloadRun env w =
      [Call.newJWTSource socketPath (some mainTimeoutSeconds),
       Call.fetchJWTSVID ⟨audienceOf env, [], none⟩ (some mainTimeoutSeconds)] ∧
    exchangeArgsOf env w = none := by
  constructor
  · simp [workloadRun, hc, hf, resolveAddr]
  · simp [exchangeArgsOf, workloadRun, hc, hf]

/-- Witness for C6 at a concrete environment and world. -/
theorem fetch_failure_is_terminal_witness :
    exchangeArgsOf envSample worldFetchFail = none :=
  (fetch_failure_is_terminal envSample worldFetchFail rfl rfl).2

/-- C7: the issuance request carries exactly the selected audience — the
`ExtraAudiences` and `Subject` fields of the fetch parameters are left
empty, so the workload attaches no identity material of its own. -/
theorem issuance_request_audience_only (env : Env) (w : World)
    (hc : w.connectOk = true) :
    fetchParamsOf env w = some ⟨audienceOf env, [], none⟩ := by
  cases hfet : w.fetchOk <;> simp [fetchParamsOf, workloadRun, hc, hfet]

/-- Witness for C7 at a concrete environment and world. -/
theorem issuance_request_audience_only_witness :
    fetchParamsOf envSample worldSample = some ⟨audienceOf envSample, [], none⟩ :=
  issuance_request_audience_only envSample worldSample rfl

/-- C8: the first call of every run connects to the fixed socket address
`unix:///opt/spire/sockets/agent.sock`, and changing the
`SPIFFE_ENDPOINT_SOCKET` environment variable to any value leaves the
whole run unchanged — the explicit `WithAddr` option overrides the
variable the in-code comment mentions. -/
theorem socket_address_fixed (env : Env) (w : World) (v : Option String) :
    socketPath = "unix:///opt/spire/sockets/agent.sock" ∧
    (workloadRun env w).head? =
      some (Call.newJWTSource socketPath (some mainTimeoutSeconds)) ∧
    workloadRun { env with spiffeEndpointSocket := v } w = workloadRun env w := by
  refine ⟨rfl, ?_, ?_⟩
  · simp [workloadRun, resolveAddr]
  · simp [workloadRun, resolveAddr, audienceOf, getenv]

/-- C9: with `AUDIENCE` unset or empty the fetch requests the fixed
default audience, and with `AUDIENCE` set to a non-empty value the fetch
requests exactly that value. -/
theorem audience_env_selection (s : String) (sock : Option String) (w : World)
    (hs : s ≠ "") (hc : w.connectOk = true) :
    defaultAudience = "https://localhost.idyatech.fr:8443/auth/realms/spiffe" ∧
    fetchParamsOf ⟨none, sock⟩ w = some ⟨defaultAudience, [], none⟩ ∧
    fetchParamsOf ⟨some "", sock⟩ w = some ⟨defaultAudience, [], none⟩ ∧
    fetchParamsOf ⟨some s, sock⟩ w = some ⟨s, [], none⟩ := by
  cases hfet : w.fetchOk <;>
    refine ⟨rfl, ?_, ?_, ?_⟩ <;>
    simp [fetchParamsOf, workloadRun, audienceOf, getenv, hc, hfet, hs]

/-- Witness for C9 at a concrete non-empty `AUDIENCE` value. -/
theorem audience_env_selection_witness :
    fetchParamsOf ⟨some "x", none⟩ worldSample = some ⟨"x", [], none⟩ :=
  (audience_env_selection "x" none worldSample (by decide) rfl).2.2.2

/-- C10: every token-exchange call of every run carries `-k`, so TLS
certificate verification of the relying party is always disabled. -/
theorem exchange_always_insecure (env : Env) (w : World)
    (args : List String) (d : Option Nat)
    (h : Call.curlExec args d ∈ workloadRun env w) :
    "-k" ∈ args ∧ tlsVerifyDisabled args := by
  cases hcon : w.connectOk <;> cases hfet : w.fetchOk <;>
    simp [workloadRun, hcon, hfet] at h
  obtain ⟨rfl, rfl⟩ := h
  constructor
  · simp [curlArgs]
  · exact Or.inl (by simp [curlArgs])

/-- Witness for C10 at a concrete run. -/
theorem exchange_always_insecure_witness :
    "-k" ∈ curlArgs "tok" ∧ tlsVerifyDisabled (curlArgs "tok") :=
  exchange_always_insecure envSample worldSample (curlArgs "tok") none (by decide)

end Workload

namespace Core

/-- C1: issuing a document for a requested audience contained in the
entry's allowed audiences and verifying it with one of those audiences,
with the issuer's trust domain allowlisted and the authority's current
key published, yields `Verified` with identity equal to the entry's
SPIFFE identity. -/
theorem issue_then_verify_verified
    (sa : SigningAuthority) (entry : RegistryEntry) (reqAud : List String)
    (now : Nat) (jti : String) (allowlist : List String)
    (expectedAud : String) (cached fresh : String → List KeyMaterial)
    (doc : SignedDocument)
    (hsub : subsetOf reqAud entry.allowedAudiences = true)
    (hissue : issue sa now jti entry reqAud = .ok doc)
    (hexp : expectedAud ∈ reqAud)
    (htrust : sa.trustDomain ∈ allowlist)
    (hkey : lookupKey (cached sa.trustDomain) (fresh sa.trustDomain)
        sa.currentKey.keyId = some (publishedCurrentKey sa)) :
    ∃ res, verify doc expectedAud allowlist cached fresh now = .ok res ∧
      res.identity = entry.spiffeId := by
  unfold issue at hissue
  rw [if_pos hsub] at hissue
  injection hissue with hissue
  subst hissue
  have hlt : now < now + min entry.ttl sa.maxTtlPolicy + 30 := by omega
  simp [verify, verifySig, clockSkewToleranceSeconds, publishedCurrentKey,
    htrust, hkey, hexp, hlt]

/-- Witness for C1 at the concrete scenario of the design document. -/
theorem issue_then_verify_verified_witness :
    ∃ res, verify docC audKC ["example.org"] (fun _ => pubKeysC) (fun _ => []) 1000 =
        .ok res ∧
      res.identity = entryC.spiffeId :=
  issue_then_verify_verified saC entryC [audKC] 1000 "jti-1" ["example.org"] audKC
    (fun _ => pubKeysC) (fun _ => []) docC (by decide) (by rfl) (by decide)
    (by decide) (by decide)

/-- C2: the checks of `verify` run in the strict order untrusted issuer,
unknown key, signature, expiry, audience, and the first failing check
determines the returned failure — in particular a document with an
invalid signature and a mismatched audience is rejected as
`SignatureInvalid`, never as `AudienceMismatch`. -/
theorem verify_first_failing_check_wins
    (doc : SignedDocument) (expectedAudience : String) (allowlist : List String)
    (cached fresh : String → List KeyMaterial) (now : Nat) :
    (doc.claims.iss ∉ allowlist →
      verify doc expectedAudience allowlist cached fresh now =
        .error .UntrustedIssuer) ∧
    (doc.claims.iss ∈ allowlist →
      lookupKey (cached doc.claims.iss) (fresh doc.claims.iss) doc.header.keyId
        = none →
      verify doc expectedAudience allowlist cached fresh now =
        .error .UnknownKey) ∧
    (∀ km, doc.claims.iss ∈ allowlist →
      lookupKey (cached doc.claims.iss) (fresh doc.claims.iss) doc.header.keyId
        = some km →
      ¬ verifySig km.publicKey doc →
      verify doc expectedAudience allowlist cached fresh now =
        .error .SignatureInvalid) ∧
    (∀ km, doc.claims.iss ∈ allowlist →
      lookupKey (cached doc.claims.iss) (fresh doc.claims.iss) doc.header.keyId
        = some km →
      verifySig km.publicKey doc →
      doc.claims.exp + clockSkewToleranceSeconds ≤ now →
      verify doc expectedAudience allowlist cached fresh now =
        .error .Expired) ∧
    (∀ km, doc.claims.iss ∈ allowlist →
      lookupKey (cached doc.claims.iss) (fresh doc.claims.iss) doc.header.keyId
        = some km →
      verifySig km.publicKey doc →
      now < doc.claims.exp + clockSkewToleranceSeconds →
      expectedAudience ∉ doc.claims.aud →
      verify doc expectedAudience allowlist cached fresh now =
        .error .AudienceMismatch) ∧
    (∀ km, doc.claims.iss ∈ allowlist →
      lookupKey (cached doc.claims.iss) (fresh doc.claims.iss) doc.header.keyId
        = some km →
      verifySig km.publicKey doc →
      now < doc.claims.exp + clockSkewToleranceSeconds →
      expectedAudience ∈ doc.claims.aud →
      verify doc expectedAudience allowlist cached fresh now =
        .ok ⟨doc.claims.sub, doc.claims⟩) := by
  refine ⟨?_, ?_, ?_, ?_, ?_, ?_⟩
  · intro h
    simp [verify, h]
  · intro h hlk
    simp [verify, h, hlk]
  · intro km h hlk hsig
    simp [verify, h, hlk, hsig]
  · intro km h hlk hsig hexp
    have hnlt : ¬ now < doc.claims.exp + clockSkewToleranceSeconds := by omega
    simp [verify, h, hlk, hsig, hnlt]
  · intro km h hlk hsig hlt haud
    simp [verify, h, hlk, hsig, hlt, haud]
  · intro km h hlk hsig hlt haud
    simp [verify, h, hlk, hsig, hlt, haud]

/-- Witness for C2: a document whose signature is invalid and whose
audience is mismatched is rejected as `SignatureInvalid`. -/
theorem verify_first_failing_check_wins_witness :
    verify badDocC audKC ["example.org"] (fun _ => pubKeysC) (fun _ => []) 1000 =
      .error .SignatureInvalid :=
  (verify_first_failing_check_wins badDocC audKC ["example.org"]
      (fun _ => pubKeysC) (fun _ => []) 1000).2.2.1
    (publishedCurrentKey saC) (by decide) (by decide) (by decide)

/-- C3 counterexample: an expired document whose signature is invalid is
rejected as `SignatureInvalid`, not as `Expired` — the signature check
runs before the expiry check. -/
theorem expired_doc_not_always_expired_result :
    expiredBadSigDoc.claims.exp + clockSkewToleranceSeconds ≤ 1000 ∧
    verify expiredBadSigDoc audKC ["example.org"] (fun _ => pubKeysC)
        (fun _ => []) 1000 = .error .SignatureInvalid ∧
    verify expiredBadSigDoc audKC ["example.org"] (fun _ => pubKeysC)
        (fun _ => []) 1000 ≠ .error .Expired := by
  refine ⟨by decide, by rfl, fun h => ?_⟩
  rw [show verify expiredBadSigDoc audKC ["example.org"] (fun _ => pubKeysC)
        (fun _ => []) 1000 =
      (Except.error VerifyError.SignatureInvalid :
        Except VerifyError VerifiedIdentity) from rfl] at h
  injection h with h
  exact absurd h (by decide)

/-- C3 (amended): a document whose expiry has passed beyond the
clock-skew tolerance is never `Verified`; and whenever the issuer, key
and signature checks all pass, the result is exactly `Expired`. -/
theorem verify_expired_never_verified
    (doc : SignedDocument) (expectedAudience : String) (allowlist : List String)
    (cached fresh : String → List KeyMaterial) (now : Nat)
    (hexp : doc.claims.exp + clockSkewToleranceSeconds ≤ now) :
    (∀ res, verify doc expectedAudience allowlist cached fresh now ≠ .ok res) ∧
    (∀ km, doc.claims.iss ∈ allowlist →
      lookupKey (cached doc.claims.iss) (fresh doc.claims.iss) doc.header.keyId
        = some km →
      verifySig km.publicKey doc →
      verify doc expectedAudience allowlist cached fresh now =
        .error .Expired) := by
  have hnlt : ¬ now < doc.claims.exp + clockSkewToleranceSeconds := by omega
  constructor
  · intro res h
    unfold verify at h
    repeat' split at h
    all_goals exact Except.noConfusion h
  · intro km h1 hlk h2
    simp [verify, h1, hlk, h2, hnlt]

/-- Witness for the amended C3: a concrete expired document with a valid
signature is rejected as `Expired`. -/
theorem verify_expired_never_verified_witness :
    verify expiredDocC audKC ["example.org"] (fun _ => pubKeysC)
      (fun _ => []) 1000 = .error .Expired :=
  (verify_expired_never_verified expiredDocC audKC ["example.org"]
      (fun _ => pubKeysC) (fun _ => []) 1000 (by decide)).2
    (publishedCurrentKey saC) (by decide) (by decide) (by decide)

end Core

end KeycloakSpiffe
